import Mathlib

/-!
Shallow embedding of the trello-cli program and proofs about it.

Source files embedded:
- src/constants.py : the three module constants.
- src/api.py       : credential startup check, the trello_get / trello_post
  HTTP helpers and the six Trello API wrapper functions.
- src/cli.py       : the interactive card-creation workflow.

Modelling conventions:
- Python dicts used as request parameter/body maps become insertion-ordered
  association lists (`List (String × String)`), with `dict.update` modelled
  by `dictUpdate`.
- The network is a function from url and parameters to an HTTP response
  (status code plus already-parsed JSON body); `requests` raising HTTPError
  is modelled by `Except Err`.
- The interactive workflow threads an explicit state: the remaining user
  inputs (answers to rich.prompt.Prompt.ask as strings, answers to
  Confirm.ask as booleans), the ordered trace of API calls issued, and the
  console output produced so far.  Unbounded `while True:` loops take fuel;
  running out of inputs or fuel yields `none`.
-/

namespace Trello

/-! ### constants.py -/

def TRELLO_API_BASE_URL : String := "https://api.trello.com/1"

def VALID_COLORS : List String :=
  ["yellow", "purple", "blue", "red", "green", "orange", "black", "sky", "pink", "lime", "null"]

def MIN_CARD_TITLE_LENGTH : Nat := 3

/-! ### api.py, HTTP layer -/

/-- A Python exception as it matters to this program: requests.HTTPError
carrying the response status, or any other exception with a message. -/
inductive Err where
  | http (status : Nat) (msg : String)
  | other (msg : String)
deriving DecidableEq, Repr

/-- Parsed JSON values, the payload of a Trello HTTP response. -/
inductive Json where
  | null
  | bool (b : Bool)
  | num (n : Int)
  | str (s : String)
  | arr (elems : List Json)
  | obj (fields : List (String × Json))

/-- An HTTP response as the program observes it: the status code and the
payload that response.json() parses out of the body. -/
structure HttpResponse where
  statusCode : Nat
  jsonBody : Json

/-- requests.Response.raise_for_status: raises HTTPError exactly when the
status code is a 4xx client error or a 5xx server error (400 <= status < 600);
all other status codes, 2xx included, pass through without raising. -/
def raise_for_status (r : HttpResponse) : Except Err Unit :=
  if 400 ≤ r.statusCode ∧ r.statusCode < 600 then
    .error (.http r.statusCode ("HTTP error for url, status " ++ toString r.statusCode))
  else
    .ok ()

/-- Python dict insertion into an insertion-ordered association list:
an existing key keeps its position and receives the new value, a new key is
appended at the end. -/
def insertKV (base : List (String × String)) (k v : String) : List (String × String) :=
  if base.any (fun p => p.1 = k) then
    base.map (fun p => if p.1 = k then (k, v) else p)
  else
    base ++ [(k, v)]

/-- Python dict.update over insertion-ordered association lists. -/
def dictUpdate : List (String × String) → List (String × String) → List (String × String)
  | base, [] => base
  | base, (k, v) :: rest => dictUpdate (insertKV base k v) rest

/-- The credentials read at module import of api.py. -/
structure ApiConfig where
  API_KEY : String
  TOKEN : String
deriving DecidableEq, Repr

/-- Python truthiness of an os.getenv result: None and the empty string are
falsy, any other string is truthy. -/
def truthyEnv : Option String → Bool
  | none => false
  | some s => s != ""

/-- Models the module-level startup of api.py: os.getenv of TRELLO_API_KEY
and TRELLO_TOKEN, and `if not API_KEY or not TOKEN: print(...); sys.exit(1)`.
sys.exit(1) is modelled as `.error` carrying the exit code and the printed
message.  Every API operation below takes the ApiConfig this produces, so no
API operation can be performed when it exits. -/
def loadApiModule (getenv : String → Option String) : Except (Nat × String) ApiConfig :=
  let apiKey := getenv "TRELLO_API_KEY"
  let token := getenv "TRELLO_TOKEN"
  if !(truthyEnv apiKey) || !(truthyEnv token) then
    .error (1, "Error: Ensure TRELLO_API_KEY and TRELLO_TOKEN are set in environment variables.")
  else
    .ok { API_KEY := apiKey.getD "", TOKEN := token.getD "" }

/-- The query parameters trello_get sends: the credential defaults, updated
with the caller parameters when those are truthy (a non-empty dict). -/
def trello_get_params (cfg : ApiConfig) (params : Option (List (String × String))) :
    List (String × String) :=
  let default_params := [("key", cfg.API_KEY), ("token", cfg.TOKEN)]
  match params with
  | some p => if p.isEmpty then default_params else dictUpdate default_params p
  | none => default_params

/-- trello_get: build the url from the fixed base, merge the credential
parameters with the caller parameters, issue the GET (`net` maps a url and
query parameters to the HTTP response), raise_for_status, and return the
parsed JSON body. -/
def trello_get (cfg : ApiConfig) (net : String → List (String × String) → HttpResponse)
    (endpoint : String) (params : Option (List (String × String))) : Except Err Json :=
  let url := TRELLO_API_BASE_URL ++ "/" ++ endpoint
  let response := net url (trello_get_params cfg params)
  match raise_for_status response with
  | .error e => .error e
  | .ok _ => .ok response.jsonBody

/-- The form body trello_post sends: the credential defaults, updated with
the caller data when truthy (a non-empty dict). -/
def trello_post_body (cfg : ApiConfig) (data : Option (List (String × String))) :
    List (String × String) :=
  let default_data := [("key", cfg.API_KEY), ("token", cfg.TOKEN)]
  match data with
  | some d => if d.isEmpty then default_data else dictUpdate default_data d
  | none => default_data

/-- trello_post: build the url, merge the credential data with the caller
data, issue the POST, raise_for_status, and return the parsed JSON body. -/
def trello_post (cfg : ApiConfig) (net : String → List (String × String) → HttpResponse)
    (endpoint : String) (data : Option (List (String × String))) : Except Err Json :=
  let url := TRELLO_API_BASE_URL ++ "/" ++ endpoint
  let response := net url (trello_post_body cfg data)
  match raise_for_status response with
  | .error e => .error e
  | .ok _ => .ok response.jsonBody

/-! ### api.py, Trello wrappers -/

def get_boards (cfg : ApiConfig) (net : String → List (String × String) → HttpResponse) :
    Except Err Json :=
  trello_get cfg net "members/me/boards" (some [("fields", "name,id")])

def get_lists (cfg : ApiConfig) (net : String → List (String × String) → HttpResponse)
    (board_id : String) : Except Err Json :=
  trello_get cfg net ("boards/" ++ board_id ++ "/lists") (some [("fields", "name,id")])

def get_labels (cfg : ApiConfig) (net : String → List (String × String) → HttpResponse)
    (board_id : String) : Except Err Json :=
  trello_get cfg net ("boards/" ++ board_id ++ "/labels") (some [("fields", "name,color,id")])

/-- requests drops dict entries whose value is None when it encodes a form
body; this encodes a dict with optional values accordingly. -/
def encodeFormData (d : List (String × Option String)) : List (String × String) :=
  d.filterMap (fun p => p.2.map (fun v => (p.1, v)))

def create_label (cfg : ApiConfig) (net : String → List (String × String) → HttpResponse)
    (board_id : String) (name : String) (color : Option String) : Except Err Json :=
  trello_post cfg net "labels"
    (some (encodeFormData [("name", some name), ("color", color), ("idBoard", some board_id)]))

/-- The data dict create_card builds: idList, name and desc always, and
idLabels exactly when label_ids is truthy (a non-empty string). -/
def create_card_data (list_id : String) (name : String) (desc : String) (label_ids : String) :
    List (String × String) :=
  let data := [("idList", list_id), ("name", name), ("desc", desc)]
  if label_ids ≠ "" then data ++ [("idLabels", label_ids)] else data

def create_card (cfg : ApiConfig) (net : String → List (String × String) → HttpResponse)
    (list_id : String) (name : String) (desc : String) (label_ids : String) : Except Err Json :=
  trello_post cfg net "cards" (some (create_card_data list_id name desc label_ids))

def add_comment (cfg : ApiConfig) (net : String → List (String × String) → HttpResponse)
    (card_id : String) (text : String) : Except Err Json :=
  trello_post cfg net ("cards/" ++ card_id ++ "/actions/comments") (some [("text", text)])

/-! ### cli.py, data as the workflow sees it

cli.py consumes the wrapper results as dicts with a fixed set of fields;
those dicts become records.  An empty string models a missing/empty (falsy)
name or color, matching the truthiness tests in create_label_options. -/

structure Board where
  id : String
  name : String
deriving DecidableEq, Repr

structure TrelloList where
  id : String
  name : String
deriving DecidableEq, Repr

structure Label where
  id : String
  name : String
  color : String
deriving DecidableEq, Repr

structure Card where
  id : String
deriving DecidableEq, Repr

/-- One API call issued by the workflow, with the arguments the cli passes. -/
inductive ApiCall where
  | getBoards
  | getLists (board_id : String)
  | getLabels (board_id : String)
  | createLabel (board_id : String) (name : String) (color : Option String)
  | createCard (list_id : String) (name : String) (desc : String) (label_ids : String)
  | addComment (card_id : String) (text : String)
deriving DecidableEq, Repr

/-- The remote service as the workflow observes it: the outcome of each API
wrapper call.  `.error` models the call raising (an HTTPError from a non-ok
status, or any other exception). -/
structure Env where
  boardsResp : Except Err (List Board)
  listsResp : String → Except Err (List TrelloList)
  labelsResp : String → Except Err (List Label)
  createLabelResp : String → String → Option String → Except Err Label
  createCardResp : String → String → String → String → Except Err Card
  addCommentResp : String → String → Except Err Unit

/-- The pending user inputs: answers the text prompts will read (in order),
and answers the Confirm.ask yes/no prompts will read (in order). -/
structure Inputs where
  texts : List String
  bools : List Bool
deriving DecidableEq, Repr

/-- The workflow state: pending inputs, the trace of API calls issued so
far (in order), and the console.print output so far (markup stripped). -/
structure WState where
  inputs : Inputs
  trace : List ApiCall
  output : List String
deriving DecidableEq, Repr

def WState.print (st : WState) (s : String) : WState :=
  { st with output := st.output ++ [s] }

def WState.call (st : WState) (c : ApiCall) : WState :=
  { st with trace := st.trace ++ [c] }

/-- Prompt.ask with neither choices nor default: returns the next input
line as entered. -/
def WState.askText (st : WState) : Option (String × WState) :=
  match st.inputs.texts with
  | [] => none
  | s :: rest => some (s, { st with inputs := { st.inputs with texts := rest } })

/-- Prompt.ask with a default and no choices: an empty input line yields the
default, any other line is returned as entered. -/
def WState.askTextDefault (st : WState) (default : String) : Option (String × WState) :=
  match st.inputs.texts with
  | [] => none
  | s :: rest =>
    some (if s = "" then default else s, { st with inputs := { st.inputs with texts := rest } })

/-- rich.prompt.Prompt.ask with a choices list: an empty input line returns
the default (when one is set) without validation; otherwise the prompt
rejects the line and asks again until the line is one of the choices. -/
def promptChoicesLoop (choices : List String) (default : Option String) :
    List String → Option (String × List String)
  | [] => none
  | s :: rest =>
    match default with
    | some d =>
      if s = "" then some (d, rest)
      else if choices.contains s then some (s, rest)
      else promptChoicesLoop choices default rest
    | none =>
      if choices.contains s then some (s, rest)
      else promptChoicesLoop choices default rest

def WState.askChoices (st : WState) (choices : List String) (default : Option String) :
    Option (String × WState) :=
  match promptChoicesLoop choices default st.inputs.texts with
  | none => none
  | some (s, rest) => some (s, { st with inputs := { st.inputs with texts := rest } })

/-- Confirm.ask: consumes the next yes/no answer. -/
def WState.askBool (st : WState) : Option (Bool × WState) :=
  match st.inputs.bools with
  | [] => none
  | b :: rest => some (b, { st with inputs := { st.inputs with bools := rest } })

/-- Python str.isspace for one character: the whitespace str.strip removes. -/
def pyIsSpace (c : Char) : Bool :=
  c = ' ' || c = '\t' || c = '\n' || c = '\r' || c = '\x0b' || c = '\x0c'

/-- Python str.strip(): remove leading and trailing whitespace. -/
def pyStrip (s : String) : String :=
  ⟨((s.data.dropWhile pyIsSpace).reverse.dropWhile pyIsSpace).reverse⟩

/-- Python str.upper() (on the ASCII inputs this program handles). -/
def pyUpper (s : String) : String := ⟨s.data.map Char.toUpper⟩

/-- Python `dict(enumerate(xs, start=1))` with string keys, insertion
ordered: the choice menus of the cli. -/
def choicesOf {α : Type} (xs : List α) : List (String × α) :=
  (List.enumFrom 1 xs).map (fun p => (toString p.1, p.2))

/-- Python dict lookup (keys are unique, so the first match). -/
def lookupKV {α : Type} (l : List (String × α)) (k : String) : Option α :=
  (l.find? (fun p => p.1 = k)).map (fun p => p.2)

def joinLines (xs : List String) : String := String.intercalate "\n" xs

/-! ### cli.py, workflow steps -/

/-- select_board: get_boards, bail out with None on an empty list, else show
the menu and ask until a valid menu key is chosen, returning that board id. -/
def select_board (env : Env) (st : WState) : Option (WState × Except Err (Option String)) :=
  let st := st.call .getBoards
  match env.boardsResp with
  | .error e => some (st, .error e)
  | .ok boards =>
    if boards.isEmpty then
      some (st.print "No boards were found.", .ok none)
    else
      let board_choices := choicesOf boards
      let st := st.print (joinLines (board_choices.map (fun p => p.1 ++ ". " ++ p.2.name)))
      match st.askChoices (board_choices.map (fun p => p.1)) none with
      | none => none
      | some (board_selection, st) =>
        match lookupKV board_choices board_selection with
        | none => none
        | some selected_board =>
          some (st.print ("Selected Board: " ++ selected_board.name), .ok (some selected_board.id))

/-- select_list: same shape as select_board, over the lists of the board. -/
def select_list (env : Env) (board_id : String) (st : WState) :
    Option (WState × Except Err (Option String)) :=
  let st := st.call (.getLists board_id)
  match env.listsResp board_id with
  | .error e => some (st, .error e)
  | .ok lists =>
    if lists.isEmpty then
      some (st.print "No columns found in this board.", .ok none)
    else
      let list_choices := choicesOf lists
      let st := st.print (joinLines (list_choices.map (fun p => p.1 ++ ". " ++ p.2.name)))
      match st.askChoices (list_choices.map (fun p => p.1)) none with
      | none => none
      | some (list_selection, st) =>
        match lookupKV list_choices list_selection with
        | none => none
        | some selected_list =>
          some (st.print ("Selected Column: " ++ selected_list.name), .ok (some selected_list.id))

/-- The card-title prompt loop of get_card_details: ask for a title and,
while the stripped title is shorter than MIN_CARD_TITLE_LENGTH, print the
rejection and ask again.  Returns the accepted (unstripped) title, the
remaining input lines and the console output. -/
def cardTitleLoop : List String → List String → Option (String × List String × List String)
  | [], _ => none
  | t :: rest, out =>
    if (pyStrip t).length < MIN_CARD_TITLE_LENGTH then
      cardTitleLoop rest
        (out ++ ["Card title must be at least " ++ toString MIN_CARD_TITLE_LENGTH ++
          " characters long."])
    else
      some (t, rest, out)

/-- get_card_details: the title loop followed by the optional description
prompt (default empty). -/
def get_card_details (st : WState) : Option (String × String × WState) :=
  let st := st.print "Add Card Details"
  match cardTitleLoop st.inputs.texts st.output with
  | none => none
  | some (card_title, rest, out) =>
    let st := { st with inputs := { st.inputs with texts := rest }, output := out }
    match st.askTextDefault "" with
    | none => none
    | some (card_desc, st) => some (card_title, card_desc, st)

/-- create_label_options: the menu text, with falsy names and colors shown
as No Name / No Color, then the 0 and F entries. -/
def create_label_options (label_choices : List (String × Label)) : String :=
  let options := label_choices.map (fun p =>
    let name := if p.2.name = "" then "No Name" else p.2.name
    let color := if p.2.color = "" then "No Color" else p.2.color
    p.1 ++ ". " ++ name ++ " (" ++ color ++ ")")
  joinLines (options ++ ["0. Create a new label", "F. Finish selecting labels"])

/-- The label-name prompt loop of create_new_label: ask and, while the
stripped name is empty, print the rejection and ask again. -/
def labelNameLoop : List String → List String → Option (String × List String × List String)
  | [], _ => none
  | s :: rest, out =>
    if pyStrip s = "" then
      labelNameLoop rest (out ++ ["Label name cannot be empty."])
    else
      some (s, rest, out)

/-- create_new_label: the name loop, then the color prompt constrained to
VALID_COLORS with default blue, then the create_label API call, with the
chosen color null mapped to None. -/
def create_new_label (env : Env) (board_id : String) (st : WState) :
    Option (WState × Except Err Label) :=
  match labelNameLoop st.inputs.texts st.output with
  | none => none
  | some (label_name, rest, out) =>
    let st := { st with inputs := { st.inputs with texts := rest }, output := out }
    match st.askChoices VALID_COLORS (some "blue") with
    | none => none
    | some (label_color, st) =>
      let color := if label_color = "null" then none else some label_color
      let st := st.call (.createLabel board_id label_name color)
      match env.createLabelResp board_id label_name color with
      | .error e => some (st, .error e)
      | .ok new_label =>
        some (st.print ("New label " ++ label_name ++ " created."), .ok new_label)

/-- The while True body of select_labels, with fuel front of the loop:
show the menu, read a selection (default F), finish on F (case insensitive),
create and auto-select a new label on 0, select a listed label on its key,
or report an invalid selection; then loop. -/
def selectLabelsLoop (env : Env) (board_id : String) :
    Nat → List (String × Label) → List String → WState →
    Option (WState × Except Err (List String))
  | 0, _, _, _ => none
  | fuel + 1, label_choices, selected_label_ids, st =>
    let st := st.print "\n"
    let st := st.print (create_label_options label_choices)
    match st.askTextDefault "F" with
    | none => none
    | some (label_selection, st) =>
      if pyUpper label_selection = "F" then
        some (st, .ok selected_label_ids)
      else if label_selection = "0" then
        match create_new_label env board_id st with
        | none => none
        | some (st, .error e) => some (st, .error e)
        | some (st, .ok new_label) =>
          selectLabelsLoop env board_id fuel
            (label_choices ++ [(toString (label_choices.length + 1), new_label)])
            (selected_label_ids ++ [new_label.id]) st
      else
        match lookupKV label_choices label_selection with
        | some label =>
          let selected_label_ids := selected_label_ids ++ [label.id]
          let st := st.print (toString selected_label_ids.length ++ " label(s) selected.")
          selectLabelsLoop env board_id fuel label_choices selected_label_ids st
        | none =>
          let st := st.print ("Invalid selection: " ++ label_selection)
          selectLabelsLoop env board_id fuel label_choices selected_label_ids st

/-- select_labels: get_labels, then the selection loop starting from the
fetched menu and no selected ids. -/
def select_labels (env : Env) (board_id : String) (fuel : Nat) (st : WState) :
    Option (WState × Except Err (List String)) :=
  let st := st.call (.getLabels board_id)
  match env.labelsResp board_id with
  | .error e => some (st, .error e)
  | .ok labels => selectLabelsLoop env board_id fuel (choicesOf labels) [] st

/-- The tail of an add_card iteration after a successful card creation: the
success print and the add-another-card confirm.  The returned Bool is true
when the while True loop is to run another iteration. -/
def finishIteration (card_title : String) (st : WState) : Option (WState × Except Err Bool) :=
  let st := st.print ("Card " ++ card_title ++ " was successfully added.")
  match st.askBool with
  | none => none
  | some (another, st) => some (st, .ok another)

/-- After create_card returns: the optional comment confirm, the comment
prompt and add_comment call when accepted, then the iteration tail. -/
def afterCardCreated (env : Env) (card_title : String) (card : Card) (st : WState) :
    Option (WState × Except Err Bool) :=
  match st.askBool with
  | none => none
  | some (add_comment_option, st) =>
    if add_comment_option then
      match st.askText with
      | none => none
      | some (comment_text, st) =>
        let st := st.call (.addComment card.id comment_text)
        match env.addCommentResp card.id comment_text with
        | .error e => some (st, .error e)
        | .ok _ =>
          finishIteration card_title (st.print "Comment added to the card.")
    else
      finishIteration card_title st

/-- One iteration of the try block inside add_card: the fixed sequence
select_board, select_list, get_card_details, select_labels, create_card,
optional add_comment.  `.ok true` means the loop continues with a fresh
iteration (a continue, or adding another card); `.ok false` means break;
`.error` is an exception escaping to the handlers. -/
def addCardBody (env : Env) (labelFuel : Nat) (st : WState) :
    Option (WState × Except Err Bool) :=
  let st := st.print "\n"
  match select_board env st with
  | none => none
  | some (st, .error e) => some (st, .error e)
  | some (st, .ok none) =>
    match st.askBool with
    | none => none
    | some (again, st) => some (st, .ok again)
  | some (st, .ok (some board_id)) =>
    match select_list env board_id st with
    | none => none
    | some (st, .error e) => some (st, .error e)
    | some (st, .ok none) =>
      match st.askBool with
      | none => none
      | some (again, st) => some (st, .ok again)
    | some (st, .ok (some list_id)) =>
      match get_card_details st with
      | none => none
      | some (card_title, card_desc, st) =>
        match select_labels env board_id labelFuel st with
        | none => none
        | some (st, .error e) => some (st, .error e)
        | some (st, .ok selected_label_ids) =>
          let st :=
            if selected_label_ids.isEmpty then st.print "No labels selected."
            else st.print (toString selected_label_ids.length ++ " label(s) selected.")
          let label_ids := String.intercalate "," selected_label_ids
          let st := st.call (.createCard list_id card_title card_desc label_ids)
          match env.createCardResp list_id card_title card_desc label_ids with
          | .error e => some (st, .error e)
          | .ok card => afterCardCreated env card_title card st

/-- The except handlers of add_card: print what the user is shown for the
caught exception. -/
def handleErr (e : Err) (st : WState) : WState :=
  match e with
  | .http _ msg =>
    (st.print "HTTP error occurred. Please check your API key and token.").print
      ("Error details: " ++ msg)
  | .other msg => st.print ("An error occurred: " ++ msg)

/-- The headline the user is shown for a caught exception. -/
def errHeadline (e : Err) : String :=
  match e with
  | .http _ _ => "HTTP error occurred. Please check your API key and token."
  | .other msg => "An error occurred: " ++ msg

/-- add_card: the top-level while True loop.  A normal iteration ends in the
add-another-card (or try-again) answer; an iteration that raises ends in the
except handler printing the error and asking whether to try again. -/
def add_card (env : Env) (labelFuel : Nat) : Nat → WState → Option WState
  | 0, _ => none
  | fuel + 1, st =>
    match addCardBody env labelFuel st with
    | none => none
    | some (st, .ok again) => if again then add_card env labelFuel fuel st else some st
    | some (st, .error e) =>
      let st := handleErr e st
      match st.askBool with
      | none => none
      | some (retry, st) => if retry then add_card env labelFuel fuel st else some st

/-! ### Concrete scenario data and helper predicates -/

/-- Decidable equality for Except results, so concrete workflow outcomes can
be checked by decide. -/
instance {e a : Type} [DecidableEq e] [DecidableEq a] : DecidableEq (Except e a) :=
  fun x y =>
    match x, y with
    | .error u, .error v =>
      if h : u = v then .isTrue (by rw [h]) else .isFalse (fun hc => h (Except.error.inj hc))
    | .error _, .ok _ => .isFalse (fun hc => Except.noConfusion hc)
    | .ok _, .error _ => .isFalse (fun hc => Except.noConfusion hc)
    | .ok u, .ok v =>
      if h : u = v then .isTrue (by rw [h]) else .isFalse (fun hc => h (Except.ok.inj hc))

/-- Helper: recognise a card-creation call in a trace. -/
def isCreateCardCall : ApiCall → Bool
  | .createCard _ _ _ _ => true
  | _ => false

/-- A 304 Not Modified response: not a success status. -/
def cexResponse : HttpResponse := { statusCode := 304, jsonBody := .str "cached" }

def cexConfig : ApiConfig := { API_KEY := "k", TOKEN := "t" }

/-- The environment of the C2 scenario: one board, one list, no labels. -/
def c2Env : Env where
  boardsResp := .ok [{ id := "b1", name := "My Board" }]
  listsResp := fun _ => .ok [{ id := "l1", name := "To Do" }]
  labelsResp := fun _ => .ok []
  createLabelResp := fun _ n c => .ok { id := "lab9", name := n, color := c.getD "" }
  createCardResp := fun _ _ _ _ => .ok { id := "c1" }
  addCommentResp := fun _ _ => .ok ()

/-- The inputs of the C2 scenario: board 1, list 1, title Test Card, empty
description, F to select no labels; no to the comment, no to another card. -/
def c2Start : WState where
  inputs := { texts := ["1", "1", "Test Card", "", "F"], bools := [false, false] }
  trace := []
  output := []

/-- An environment whose boards call raises an HTTP 401 error. -/
def c4Env : Env where
  boardsResp := .error (.http 401 "boards failed")
  listsResp := fun _ => .ok []
  labelsResp := fun _ => .ok []
  createLabelResp := fun _ _ _ => .error (.other "x")
  createCardResp := fun _ _ _ _ => .error (.other "x")
  addCommentResp := fun _ _ => .error (.other "x")

/-- A start state that declines the retry prompt. -/
def c4St : WState where
  inputs := { texts := [], bools := [false] }
  trace := []
  output := []

/-- The state after the failing C4 iteration body. -/
def c4Mid : WState where
  inputs := { texts := [], bools := [false] }
  trace := [.getBoards]
  output := ["\n"]

/-- An environment whose create_label call returns a fixed label. -/
def c10Env : Env where
  boardsResp := .ok []
  listsResp := fun _ => .ok []
  labelsResp := fun _ => .ok []
  createLabelResp := fun _ n c => .ok { id := "L9", name := n, color := c.getD "" }
  createCardResp := fun _ _ _ _ => .ok { id := "c" }
  addCommentResp := fun _ _ => .ok ()

/-- The label c10Env creates for name mylabel and color red. -/
def c10Lbl : Label := { id := "L9", name := "mylabel", color := "red" }

/-- Label-menu inputs: 0 to create a label, then its name and color. -/
def c10St : WState where
  inputs := { texts := ["0", "mylabel", "red"], bools := [] }
  trace := []
  output := []

/-- The state after the new label was created in the c10 scenario. -/
def c10St2 : WState where
  inputs := { texts := [], bools := [] }
  trace := [.createLabel "b" "mylabel" (some "red")]
  output := ["\n", "0. Create a new label\nF. Finish selecting labels",
    "New label mylabel created."]

def isGetBoardsCall : ApiCall → Bool
  | .getBoards => true
  | _ => false

def isGetListsCall : ApiCall → Bool
  | .getLists _ => true
  | _ => false

def isGetLabelsCall : ApiCall → Bool
  | .getLabels _ => true
  | _ => false

def isCreateLabelCall : ApiCall → Bool
  | .createLabel _ _ _ => true
  | _ => false

def isAddCommentCall : ApiCall → Bool
  | .addComment _ _ => true
  | _ => false

/-- In the trace tr, every call satisfying q comes strictly after some call
satisfying p. -/
def precededBy (p q : ApiCall → Bool) (tr : List ApiCall) : Prop :=
  ∀ l1 c l2, tr = l1 ++ c :: l2 → q c = true → ∃ cp ∈ l1, p cp = true

/-- The possible shapes of the API-call trace of one add_card iteration:
getBoards alone (boards failed or none selected), then optionally getLists,
then optionally getLabels with some createLabel calls, then optionally the
createCard call, then optionally the addComment call. -/
def iterTraceShape (tail : List ApiCall) : Prop :=
  tail = [.getBoards] ∨
  (∃ b, tail = [.getBoards, .getLists b]) ∨
  ∃ b L, (∀ c ∈ L, isCreateLabelCall c = true) ∧
    (tail = .getBoards :: .getLists b :: .getLabels b :: L ∨
     (∃ li n d ids,
       tail = .getBoards :: .getLists b :: .getLabels b :: (L ++ [.createCard li n d ids])) ∨
     ∃ li n d ids cid txt,
       tail = .getBoards :: .getLists b :: .getLabels b ::
         (L ++ [.createCard li n d ids, .addComment cid txt]))

/-- The environment of the C8 witness run: one board, one list, no labels,
successful card creation and comment. -/
def c8Env : Env where
  boardsResp := .ok [{ id := "b1", name := "My Board" }]
  listsResp := fun _ => .ok [{ id := "l1", name := "To Do" }]
  labelsResp := fun _ => .ok []
  createLabelResp := fun _ n c => .ok { id := "L9", name := n, color := c.getD "" }
  createCardResp := fun _ _ _ _ => .ok { id := "c1" }
  addCommentResp := fun _ _ => .ok ()

/-- Inputs of the C8 witness run: board 1, list 1, a title, no labels, and a
comment. -/
def c8St : WState where
  inputs := { texts := ["1", "1", "Test Card", "", "F", "a comment"], bools := [true, false] }
  trace := []
  output := []

/-- The state at the end of the C8 witness iteration. -/
def c8End : WState where
  inputs := { texts := [], bools := [] }
  trace := [.getBoards, .getLists "b1", .getLabels "b1",
    .createCard "l1" "Test Card" "" "", .addComment "c1" "a comment"]
  output := ["\n", "1. My Board", "Selected Board: My Board", "1. To Do",
    "Selected Column: To Do", "Add Card Details", "\n",
    "0. Create a new label\nF. Finish selecting labels", "No labels selected.",
    "Comment added to the card.", "Card Test Card was successfully added."]

/-! ### Theorems -/



/-- C1 counterexample: with a 304 (non-2xx) response, trello_get returns the
parsed payload instead of raising, so a non-successful status does not always
raise an HTTP error. -/
theorem trello_get_not2xx_can_return :
    ¬(200 ≤ cexResponse.statusCode ∧ cexResponse.statusCode < 300) ∧
      trello_get cexConfig (fun _ _ => cexResponse) "members/me/boards" none =
        .ok (.str "cached") :=
  ⟨by decide, rfl⟩

/-- C1 (amended): for every API client operation, a 2xx response makes the
operation return the parsed JSON payload unchanged, and a 4xx or 5xx response
makes it raise an HTTP error; other statuses (1xx/3xx, e.g. 304) also return
the payload, because requests.raise_for_status only raises for 4xx/5xx. -/
theorem trello_http_ok_and_error (cfg : ApiConfig) (r : HttpResponse)
    (endpoint : String) (params data : Option (List (String × String))) :
    (200 ≤ r.statusCode ∧ r.statusCode < 300 →
      trello_get cfg (fun _ _ => r) endpoint params = .ok r.jsonBody ∧
        trello_post cfg (fun _ _ => r) endpoint data = .ok r.jsonBody) ∧
    (400 ≤ r.statusCode ∧ r.statusCode < 600 →
      (∃ e, trello_get cfg (fun _ _ => r) endpoint params = .error e) ∧
        ∃ e, trello_post cfg (fun _ _ => r) endpoint data = .error e) := by
  unfold trello_get trello_post raise_for_status
  constructor
  · intro h
    have hne : ¬(400 ≤ r.statusCode ∧ r.statusCode < 600) := by omega
    simp [hne]
  · intro h
    simp [h]

/-- C1 witness: both hypotheses are satisfiable at concrete responses. -/
theorem trello_http_ok_and_error_witness :
    trello_get cexConfig (fun _ _ => { statusCode := 200, jsonBody := .str "p" })
        "members/me/boards" none = .ok (.str "p") ∧
      ∃ e, trello_get cexConfig (fun _ _ => { statusCode := 404, jsonBody := .null })
        "members/me/boards" none = .error e :=
  ⟨((trello_http_ok_and_error cexConfig { statusCode := 200, jsonBody := .str "p" }
      "members/me/boards" none none).1 (by decide)).1,
    ((trello_http_ok_and_error cexConfig { statusCode := 404, jsonBody := .null }
      "members/me/boards" none none).2 (by decide)).1⟩

/-- C5: when either credential is missing from the environment, the api
module startup exits with code 1 (and the error message) instead of
producing the ApiConfig that every API operation requires. -/
theorem missing_credentials_exit (getenv : String → Option String)
    (h : getenv "TRELLO_API_KEY" = none ∨ getenv "TRELLO_TOKEN" = none) :
    loadApiModule getenv =
      .error (1,
        "Error: Ensure TRELLO_API_KEY and TRELLO_TOKEN are set in environment variables.") := by
  unfold loadApiModule
  rcases h with h | h <;> simp [h, truthyEnv]

/-- C5 witness: an environment with no variables set trips the startup exit. -/
theorem missing_credentials_exit_witness :
    loadApiModule (fun _ => none) =
      .error (1,
        "Error: Ensure TRELLO_API_KEY and TRELLO_TOKEN are set in environment variables.") :=
  missing_credentials_exit (fun _ => none) (Or.inl rfl)

/-- C9: the POST body create_card sends contains the idLabels field exactly
when the label_ids argument is a non-empty string; an empty label_ids leaves
the field out entirely. -/
theorem create_card_idLabels_iff (cfg : ApiConfig)
    (list_id name desc label_ids : String) :
    ((trello_post_body cfg (some (create_card_data list_id name desc label_ids))).any
        (fun p => p.1 = "idLabels")) = true ↔ label_ids ≠ "" := by
  by_cases h : label_ids = "" <;>
    simp [create_card_data, trello_post_body, dictUpdate, insertKV, h]

/-- C9 witness: concrete instances on both sides of the iff. -/
theorem create_card_idLabels_iff_witness :
    ((trello_post_body cexConfig (some (create_card_data "l" "n" "d" "a,b"))).any
        (fun p => p.1 = "idLabels")) = true ∧
      ¬((trello_post_body cexConfig (some (create_card_data "l" "n" "d" ""))).any
        (fun p => p.1 = "idLabels")) = true :=
  ⟨(create_card_idLabels_iff cexConfig "l" "n" "d" "a,b").mpr (by decide),
    fun hc => (create_card_idLabels_iff cexConfig "l" "n" "d" "").mp hc rfl⟩


/-- C2: in the one-board one-list run with title Test Card, no labels and no
comment, the workflow completes and issues exactly one card-creation call,
with name Test Card and an empty label-id string. -/
theorem single_run_creates_one_card :
    (add_card c2Env 5 1 c2Start).map (fun st => st.trace.filter isCreateCardCall) =
      some [ApiCall.createCard "l1" "Test Card" "" ""] := by decide

/-- The card-title loop accepts exactly the first input whose stripped form
reaches the minimum length, rejects (with a printed message) every earlier
input, and leaves the later inputs unread. -/
theorem cardTitleLoop_spec (texts : List String) (out : List String) (t : String)
    (rest out' : List String) (h : cardTitleLoop texts out = some (t, rest, out')) :
    MIN_CARD_TITLE_LENGTH ≤ (pyStrip t).length ∧
      ∃ pre, texts = pre ++ t :: rest ∧
        (∀ s ∈ pre, (pyStrip s).length < MIN_CARD_TITLE_LENGTH) ∧
        out' = out ++ pre.map (fun _ =>
          "Card title must be at least " ++ toString MIN_CARD_TITLE_LENGTH ++
            " characters long.") := by
  induction texts generalizing out with
  | nil => simp [cardTitleLoop] at h
  | cons x xs ih =>
    rw [cardTitleLoop] at h
    by_cases hx : (pyStrip x).length < MIN_CARD_TITLE_LENGTH
    · rw [if_pos hx] at h
      obtain ⟨h1, pre, h2, h3, h4⟩ := ih _ h
      refine ⟨h1, x :: pre, by simp [h2], ?_, by simp [h4]⟩
      intro s hs
      rcases List.mem_cons.mp hs with rfl | hs
      · exact hx
      · exact h3 s hs
    · rw [if_neg hx] at h
      cases h
      exact ⟨Nat.le_of_not_lt hx, [], rfl, by simp, by simp⟩

/-- get_card_details reaches its title through cardTitleLoop on the pending
text inputs. -/
theorem get_card_details_title (st : WState) (title desc : String) (st' : WState)
    (h : get_card_details st = some (title, desc, st')) :
    ∃ rest out', cardTitleLoop st.inputs.texts (st.output ++ ["Add Card Details"]) =
      some (title, rest, out') := by
  simp only [get_card_details, WState.print] at h
  split at h
  · exact absurd h (by simp)
  · next t rest out heq =>
    simp only [WState.askTextDefault] at h
    split at h
    · exact absurd h (by simp)
    · next s rest2 heq2 =>
      cases h
      exact ⟨rest, out, heq⟩

/-- C3: the card-title prompt loop returns only a title whose stripped form
meets MIN_CARD_TITLE_LENGTH; every earlier (shorter) input is rejected with
the printed message and the user is asked again, and get_card_details only
ever returns a title accepted by that loop. -/
theorem card_title_prompt_min_length :
    (∀ (texts out : List String) (t : String) (rest out' : List String),
      cardTitleLoop texts out = some (t, rest, out') →
        MIN_CARD_TITLE_LENGTH ≤ (pyStrip t).length ∧
          ∃ pre, texts = pre ++ t :: rest ∧
            (∀ s ∈ pre, (pyStrip s).length < MIN_CARD_TITLE_LENGTH) ∧
            out' = out ++ pre.map (fun _ =>
              "Card title must be at least " ++ toString MIN_CARD_TITLE_LENGTH ++
                " characters long.")) ∧
    ∀ (st : WState) (title desc : String) (st' : WState),
      get_card_details st = some (title, desc, st') →
        MIN_CARD_TITLE_LENGTH ≤ (pyStrip title).length := by
  refine ⟨cardTitleLoop_spec, ?_⟩
  intro st title desc st' h
  obtain ⟨rest, out', hc⟩ := get_card_details_title st title desc st' h
  exact (cardTitleLoop_spec _ _ _ _ _ hc).1

/-- C3 witness: with inputs ab (too short) then Test Card, the loop rejects
the first and accepts the second. -/
theorem card_title_prompt_min_length_witness :
    MIN_CARD_TITLE_LENGTH ≤ (pyStrip "Test Card").length ∧
      MIN_CARD_TITLE_LENGTH ≤ (pyStrip "Valid title").length :=
  ⟨(card_title_prompt_min_length.1 ["ab", "Test Card"] [] "Test Card" [] ["Card title must be at least 3 characters long."] (by decide)).1,
    card_title_prompt_min_length.2
      { inputs := { texts := ["", "Valid title", "d"], bools := [] }, trace := [], output := [] }
      "Valid title" "d"
      { inputs := { texts := [], bools := [] }, trace := [],
        output := ["Add Card Details", "Card title must be at least 3 characters long."] }
      (by decide)⟩

/-- The label-name loop accepts exactly the first input whose stripped form
is non-empty and rejects every earlier one with the printed message. -/
theorem labelNameLoop_spec (texts : List String) (out : List String) (n : String)
    (rest out' : List String) (h : labelNameLoop texts out = some (n, rest, out')) :
    pyStrip n ≠ "" ∧
      ∃ pre, texts = pre ++ n :: rest ∧ (∀ s ∈ pre, pyStrip s = "") ∧
        out' = out ++ pre.map (fun _ => "Label name cannot be empty.") := by
  induction texts generalizing out with
  | nil => simp [labelNameLoop] at h
  | cons x xs ih =>
    rw [labelNameLoop] at h
    by_cases hx : pyStrip x = ""
    · rw [if_pos hx] at h
      obtain ⟨h1, pre, h2, h3, h4⟩ := ih _ h
      refine ⟨h1, x :: pre, by simp [h2], ?_, by simp [h4]⟩
      intro s hs
      rcases List.mem_cons.mp hs with rfl | hs
      · exact hx
      · exact h3 s hs
    · rw [if_neg hx] at h
      cases h
      exact ⟨hx, [], rfl, by simp, by simp⟩

/-- The choices prompt returns the default on an empty line, otherwise the
first line that is one of the choices, rejecting every earlier line (each
rejected line was non-empty and not a choice). -/
theorem promptChoicesLoop_spec (choices : List String) (d : String) (texts : List String)
    (c : String) (rest : List String)
    (h : promptChoicesLoop choices (some d) texts = some (c, rest)) :
    (c = d ∨ c ∈ choices) ∧
      ∃ pre raw, texts = pre ++ raw :: rest ∧ ((raw = "" ∧ c = d) ∨ raw = c) ∧
        ∀ s ∈ pre, s ≠ "" ∧ s ∉ choices := by
  induction texts with
  | nil => simp [promptChoicesLoop] at h
  | cons x xs ih =>
    rw [promptChoicesLoop] at h
    by_cases hx : x = ""
    · rw [if_pos hx] at h
      cases h
      exact ⟨Or.inl rfl, [], x, rfl, Or.inl ⟨hx, rfl⟩, by simp⟩
    · rw [if_neg hx] at h
      by_cases hm : choices.contains x
      · rw [if_pos hm] at h
        cases h
        exact ⟨Or.inr (by simpa using hm), [], c, rfl, Or.inr rfl, by simp⟩
      · rw [if_neg hm] at h
        obtain ⟨h1, pre, raw, h2, h3, h4⟩ := ih h
        refine ⟨h1, x :: pre, raw, by simp [h2], h3, ?_⟩
        intro s hs
        rcases List.mem_cons.mp hs with rfl | hs
        · exact ⟨hx, by simpa using hm⟩
        · exact h4 s hs

/-- create_new_label always issues exactly one createLabel call, whose name
survived the non-empty check and whose color came from the VALID_COLORS
prompt (null mapped to None). -/
theorem create_new_label_spec (env : Env) (b : String) (st st' : WState)
    (res : Except Err Label) (h : create_new_label env b st = some (st', res)) :
    ∃ name c, pyStrip name ≠ "" ∧ c ∈ VALID_COLORS ∧
      st'.trace = st.trace ++ [.createLabel b name (if c = "null" then none else some c)] := by
  simp only [create_new_label] at h
  split at h
  · exact absurd h (by simp)
  · next label_name rest out heq =>
    simp only [WState.askChoices] at h
    split at h
    · exact absurd h (by simp)
    · next label_color st2 heq2 =>
      split at heq2
      · exact absurd heq2 (by simp)
      · next s r heq3 =>
        rw [Option.some.injEq, Prod.mk.injEq] at heq2
        obtain ⟨rfl, rfl⟩ := heq2
        have hname := (labelNameLoop_spec _ _ _ _ _ heq).1
        have hcol : s ∈ VALID_COLORS := by
          rcases (promptChoicesLoop_spec _ _ _ _ _ heq3).1 with rfl | hc
          · decide
          · exact hc
        split at h
        · next e heqr =>
          cases h
          exact ⟨label_name, s, hname, hcol, by simp [WState.call]⟩
        · next lbl heqr =>
          cases h
          exact ⟨label_name, s, hname, hcol, by simp [WState.call, WState.print]⟩

/-- C6: whenever create_new_label issues its label-creation call, the color
accepted by the prompt is a member of VALID_COLORS (null becoming None), and
the color prompt rejects and re-asks every input outside the set (empty
input yielding the default blue). -/
theorem label_color_from_valid_set :
    (∀ (env : Env) (b : String) (st st' : WState) (res : Except Err Label),
      create_new_label env b st = some (st', res) →
        ∃ name c, c ∈ VALID_COLORS ∧
          st'.trace = st.trace ++ [.createLabel b name (if c = "null" then none else some c)]) ∧
    ∀ (texts : List String) (c : String) (rest : List String),
      promptChoicesLoop VALID_COLORS (some "blue") texts = some (c, rest) →
        c ∈ VALID_COLORS ∧
          ∃ pre raw, texts = pre ++ raw :: rest ∧ ((raw = "" ∧ c = "blue") ∨ raw = c) ∧
            ∀ s ∈ pre, s ≠ "" ∧ s ∉ VALID_COLORS := by
  constructor
  · intro env b st st' res h
    obtain ⟨name, c, _, hc, htr⟩ := create_new_label_spec env b st st' res h
    exact ⟨name, c, hc, htr⟩
  · intro texts c rest h
    obtain ⟨h1, h2⟩ := promptChoicesLoop_spec VALID_COLORS "blue" texts c rest h
    refine ⟨?_, h2⟩
    rcases h1 with rfl | h1
    · decide
    · exact h1

/-- C6 witness: a run that rejects an invalid color then accepts red, and a
create_new_label call recorded with a valid color. -/
theorem label_color_from_valid_set_witness :
    ("red" ∈ VALID_COLORS ∧
      ∃ pre raw, (["mauve", "red", "x"] : List String) = pre ++ raw :: ["x"] ∧
        ((raw = "" ∧ "red" = "blue") ∨ raw = "red") ∧
        ∀ s ∈ pre, s ≠ "" ∧ s ∉ VALID_COLORS) ∧
    ∃ name c, c ∈ VALID_COLORS ∧
      ([ApiCall.createLabel "b" "mylabel" (some "red")] : List ApiCall) =
        [] ++ [.createLabel "b" name (if c = "null" then none else some c)] :=
  ⟨label_color_from_valid_set.2 ["mauve", "red", "x"] "red" ["x"] (by decide),
    label_color_from_valid_set.1
      { boardsResp := .ok [], listsResp := fun _ => .ok [], labelsResp := fun _ => .ok [],
        createLabelResp := fun _ n c => .ok { id := "L9", name := n, color := c.getD "" },
        createCardResp := fun _ _ _ _ => .ok { id := "c" },
        addCommentResp := fun _ _ => .ok () }
      "b"
      { inputs := { texts := ["mylabel", "red"], bools := [] }, trace := [], output := [] }
      { inputs := { texts := [], bools := [] },
        trace := [.createLabel "b" "mylabel" (some "red")],
        output := ["New label mylabel created."] }
      (.ok { id := "L9", name := "mylabel", color := "red" })
      (by decide)⟩

/-- C7: the name of every label-creation call create_new_label issues is
non-empty (its stripped form is non-empty), and the name loop rejects and
re-asks every input that strips to the empty string. -/
theorem label_name_nonempty :
    (∀ (env : Env) (b : String) (st st' : WState) (res : Except Err Label),
      create_new_label env b st = some (st', res) →
        ∃ name color, pyStrip name ≠ "" ∧ name ≠ "" ∧
          st'.trace = st.trace ++ [.createLabel b name color]) ∧
    ∀ (texts out : List String) (n : String) (rest out' : List String),
      labelNameLoop texts out = some (n, rest, out') →
        pyStrip n ≠ "" ∧
          ∃ pre, texts = pre ++ n :: rest ∧ (∀ s ∈ pre, pyStrip s = "") ∧
            out' = out ++ pre.map (fun _ => "Label name cannot be empty.") := by
  constructor
  · intro env b st st' res h
    obtain ⟨name, c, hname, _, htr⟩ := create_new_label_spec env b st st' res h
    refine ⟨name, _, hname, ?_, htr⟩
    intro hn
    exact hname (by simp [hn, pyStrip, pyIsSpace])
  · exact labelNameLoop_spec

/-- C7 witness: the name loop rejects whitespace-only input and accepts a
real name; create_new_label then calls createLabel with that name. -/
theorem label_name_nonempty_witness :
    (∃ name color, pyStrip name ≠ "" ∧ name ≠ "" ∧
      ([ApiCall.createLabel "b" "mylabel" (some "red")] : List ApiCall) =
        [] ++ [.createLabel "b" name color]) ∧
    pyStrip "todo" ≠ "" :=
  ⟨label_name_nonempty.1
      { boardsResp := .ok [], listsResp := fun _ => .ok [], labelsResp := fun _ => .ok [],
        createLabelResp := fun _ n c => .ok { id := "L9", name := n, color := c.getD "" },
        createCardResp := fun _ _ _ _ => .ok { id := "c" },
        addCommentResp := fun _ _ => .ok () }
      "b"
      { inputs := { texts := [" ", "mylabel", "red"], bools := [] }, trace := [], output := [] }
      { inputs := { texts := [], bools := [] },
        trace := [.createLabel "b" "mylabel" (some "red")],
        output := ["Label name cannot be empty.", "New label mylabel created."] }
      (.ok { id := "L9", name := "mylabel", color := "red" })
      (by decide),
    (label_name_nonempty.2 ["", "todo"] [] "todo" [] ["Label name cannot be empty."]
      (by decide)).1⟩

/-- C4: when an iteration of the add_card loop raises (HTTP error or any
other exception), the user is shown the error message and asked a yes/no
question; answering no makes the loop stop with that state, answering yes
makes the loop start a fresh top-level iteration. -/
theorem add_card_error_retry (env : Env) (labelFuel fuel : Nat) (st st' : WState) (e : Err)
    (b : Bool) (bs : List Bool)
    (h1 : addCardBody env labelFuel st = some (st', .error e))
    (h2 : st'.inputs.bools = b :: bs) :
    errHeadline e ∈ (handleErr e st').output ∧
      add_card env labelFuel (fuel + 1) st =
        (if b then
          add_card env labelFuel fuel
            { handleErr e st' with inputs := { (handleErr e st').inputs with bools := bs } }
        else
          some { handleErr e st' with inputs := { (handleErr e st').inputs with bools := bs } }) := by
  have hb : (handleErr e st').inputs.bools = b :: bs := by
    cases e <;> simp [handleErr, WState.print, h2]
  constructor
  · cases e <;> simp [handleErr, errHeadline, WState.print]
  · rw [add_card, h1]
    simp only [WState.askBool, hb]

/-- C4 witness: a 401 on get_boards is surfaced and, with the user
declining, the loop stops. -/
theorem add_card_error_retry_witness :
    errHeadline (.http 401 "boards failed") ∈
        (handleErr (.http 401 "boards failed") c4Mid).output ∧
      add_card c4Env 1 1 c4St =
        (if false then
          add_card c4Env 1 0
            { handleErr (.http 401 "boards failed") c4Mid with
              inputs := { (handleErr (.http 401 "boards failed") c4Mid).inputs with bools := [] } }
        else
          some { handleErr (.http 401 "boards failed") c4Mid with
            inputs := { (handleErr (.http 401 "boards failed") c4Mid).inputs with
              bools := [] } }) :=
  add_card_error_retry c4Env 1 0 c4St c4Mid (.http 401 "boards failed") false []
    (by decide) rfl

/-- C10: when the user answers 0 at the label menu and the new-label flow
returns a label, the loop continues with that label id appended to the
selected ids (no separate selection step) and with the new label appended to
the menu under the next numeric key, where looking up that key finds it. -/
theorem new_label_autoselected_and_menued (env : Env) (b : String) (fuel : Nat)
    (label_choices : List (String × Label)) (selected : List String)
    (st : WState) (rest : List String) (st2 : WState) (lbl : Label)
    (h1 : st.inputs.texts = "0" :: rest)
    (h2 : create_new_label env b
      { (st.print "\n").print (create_label_options label_choices) with
        inputs := { ((st.print "\n").print (create_label_options label_choices)).inputs with
          texts := rest } } = some (st2, .ok lbl)) :
    selectLabelsLoop env b (fuel + 1) label_choices selected st =
      selectLabelsLoop env b fuel
        (label_choices ++ [(toString (label_choices.length + 1), lbl)])
        (selected ++ [lbl.id]) st2 ∧
      (lookupKV label_choices (toString (label_choices.length + 1)) = none →
        lookupKV (label_choices ++ [(toString (label_choices.length + 1), lbl)])
          (toString (label_choices.length + 1)) = some lbl) := by
  constructor
  · rw [selectLabelsLoop]
    have ht : ((st.print "\n").print (create_label_options label_choices)).inputs.texts =
        "0" :: rest := by
      simp [WState.print, h1]
    simp only [WState.askTextDefault, ht]
    rw [h2]
    rw [if_neg (by decide : ¬(pyUpper (if ("0" : String) = "" then "F" else "0") = "F"))]
    rw [if_pos (by decide : (if ("0" : String) = "" then "F" else "0") = "0")]
  · intro hfresh
    simp [lookupKV] at hfresh ⊢
    exact ⟨toString (label_choices.length + 1), Or.inr ⟨hfresh, rfl⟩⟩

/-- C10 witness: answering 0 with name mylabel and color red continues the
loop with the new label selected and listed under key 1. -/
theorem new_label_autoselected_and_menued_witness :
    selectLabelsLoop c10Env "b" 1 [] [] c10St =
        selectLabelsLoop c10Env "b" 0 [("1", c10Lbl)] [c10Lbl.id] c10St2 ∧
      (lookupKV ([] : List (String × Label)) "1" = none →
        lookupKV [("1", c10Lbl)] "1" = some c10Lbl) :=
  new_label_autoselected_and_menued c10Env "b" 0 [] [] c10St ["mylabel", "red"] c10St2 c10Lbl
    rfl (by decide)

/-- A trace without q-calls vacuously satisfies precededBy. -/
theorem precededBy_of_no_q (p q : ApiCall → Bool) (tr : List ApiCall)
    (h : ∀ c ∈ tr, q c = false) : precededBy p q tr := by
  intro l1 c l2 htr hq
  have hc : c ∈ tr := htr ▸ List.mem_append_right _ (List.mem_cons_self _ _)
  rw [h c hc] at hq
  cases hq

/-- If the first part of a trace has no q-call but has a p-call, every
q-call of the whole trace is preceded by that p-call. -/
theorem precededBy_of_split (p q : ApiCall → Bool) (t1 t2 : List ApiCall)
    (hno : ∀ c ∈ t1, q c = false) (hp : ∃ cp ∈ t1, p cp = true) :
    precededBy p q (t1 ++ t2) := by
  intro l1 c l2 htr hq
  rcases List.append_eq_append_iff.mp htr with ⟨as, hA1, _⟩ | ⟨cs, hB1, hB2⟩
  · obtain ⟨cp, hcp, hpcp⟩ := hp
    exact ⟨cp, hA1 ▸ List.mem_append_left _ hcp, hpcp⟩
  · cases cs with
    | nil =>
      obtain ⟨cp, hcp, hpcp⟩ := hp
      have : t1 = l1 := by simpa using hB1
      exact ⟨cp, this ▸ hcp, hpcp⟩
    | cons x cs' =>
      have hx : c = x := by
        have := (List.cons.injEq c l2 x (cs' ++ t2)).mp (by simpa using hB2)
        exact this.1
      have hcmem : c ∈ t1 := by
        rw [hB1, hx]
        exact List.mem_append_right _ (List.mem_cons_self _ _)
      rw [hno c hcmem] at hq
      cases hq

/-- A createLabel call is neither a createCard call nor an addComment call
nor one of the get calls. -/
theorem isCreateLabelCall_only (c : ApiCall) (h : isCreateLabelCall c = true) :
    isCreateCardCall c = false ∧ isAddCommentCall c = false ∧
      isGetBoardsCall c = false ∧ isGetListsCall c = false ∧ isGetLabelsCall c = false := by
  cases c <;> simp_all [isCreateLabelCall, isCreateCardCall, isAddCommentCall,
    isGetBoardsCall, isGetListsCall, isGetLabelsCall]

/-- Printing one of two messages never changes the trace. -/
theorem trace_print_ite (cnd : Prop) [Decidable cnd] (st : WState) (a b : String) :
    (if cnd then st.print a else st.print b).trace = st.trace := by
  split <;> rfl

/-- select_board issues exactly the getBoards call. -/
theorem select_board_trace (env : Env) (st st' : WState) (r : Except Err (Option String))
    (h : select_board env st = some (st', r)) :
    st'.trace = st.trace ++ [.getBoards] := by
  simp only [select_board] at h
  split at h
  · cases h
    simp [WState.call]
  · next boards heqb =>
    split at h
    · cases h
      simp [WState.call, WState.print]
    · simp only [WState.askChoices] at h
      split at h
      · exact absurd h (by simp)
      · next sel st2 heq2 =>
        split at heq2
        · exact absurd heq2 (by simp)
        · next s r2 heq3 =>
          rw [Option.some.injEq, Prod.mk.injEq] at heq2
          obtain ⟨rfl, rfl⟩ := heq2
          split at h
          · exact absurd h (by simp)
          · next bsel heql =>
            cases h
            simp [WState.call, WState.print]

/-- select_list issues exactly the getLists call. -/
theorem select_list_trace (env : Env) (b : String) (st st' : WState)
    (r : Except Err (Option String)) (h : select_list env b st = some (st', r)) :
    st'.trace = st.trace ++ [.getLists b] := by
  simp only [select_list] at h
  split at h
  · cases h
    simp [WState.call]
  · next lists heqb =>
    split at h
    · cases h
      simp [WState.call, WState.print]
    · simp only [WState.askChoices] at h
      split at h
      · exact absurd h (by simp)
      · next sel st2 heq2 =>
        split at heq2
        · exact absurd heq2 (by simp)
        · next s r2 heq3 =>
          rw [Option.some.injEq, Prod.mk.injEq] at heq2
          obtain ⟨rfl, rfl⟩ := heq2
          split at h
          · exact absurd h (by simp)
          · next lsel heql =>
            cases h
            simp [WState.call, WState.print]

/-- get_card_details issues no API call. -/
theorem get_card_details_trace (st : WState) (t d : String) (st' : WState)
    (h : get_card_details st = some (t, d, st')) : st'.trace = st.trace := by
  simp only [get_card_details, WState.print] at h
  split at h
  · exact absurd h (by simp)
  · next tt rest out heq =>
    simp only [WState.askTextDefault] at h
    split at h
    · exact absurd h (by simp)
    · next s st2 heq2 =>
      cases h
      split at heq2
      · exact absurd heq2 (by simp)
      · rw [Option.some.injEq, Prod.mk.injEq] at heq2
        obtain ⟨rfl, rfl⟩ := heq2
        rfl

/-- finishIteration issues no API call. -/
theorem finishIteration_trace (title : String) (st st' : WState) (r : Except Err Bool)
    (h : finishIteration title st = some (st', r)) : st'.trace = st.trace := by
  simp only [finishIteration, WState.print, WState.askBool] at h
  split at h
  · exact absurd h (by simp)
  · next bb st2 heq =>
    cases h
    split at heq
    · exact absurd heq (by simp)
    · rw [Option.some.injEq, Prod.mk.injEq] at heq
      obtain ⟨rfl, rfl⟩ := heq
      rfl

/-- After card creation, the only possible API call is the addComment of the
created card. -/
theorem afterCardCreated_trace (env : Env) (title : String) (card : Card) (st st' : WState)
    (r : Except Err Bool) (h : afterCardCreated env title card st = some (st', r)) :
    st'.trace = st.trace ∨ ∃ txt, st'.trace = st.trace ++ [.addComment card.id txt] := by
  simp only [afterCardCreated, WState.askBool] at h
  split at h
  · exact absurd h (by simp)
  · next bb st1 heq =>
    have ht1 : st1.trace = st.trace := by
      split at heq
      · exact absurd heq (by simp)
      · rw [Option.some.injEq, Prod.mk.injEq] at heq
        obtain ⟨rfl, rfl⟩ := heq
        rfl
    split at h
    · simp only [WState.askText] at h
      split at h
      · exact absurd h (by simp)
      · next txt st2 heq2 =>
        have ht2 : st2.trace = st1.trace := by
          split at heq2
          · exact absurd heq2 (by simp)
          · rw [Option.some.injEq, Prod.mk.injEq] at heq2
            obtain ⟨rfl, rfl⟩ := heq2
            rfl
        split at h
        · next e heqr =>
          cases h
          exact Or.inr ⟨txt, by simp [WState.call, ht2, ht1]⟩
        · next u heqr =>
          have hf := finishIteration_trace _ _ _ _ h
          rw [hf]
          exact Or.inr ⟨txt, by simp [WState.call, WState.print, ht2, ht1]⟩
    · have hf := finishIteration_trace _ _ _ _ h
      rw [hf, ht1]
      exact Or.inl rfl

/-- Confirm.ask never changes the trace. -/
theorem askBool_trace (st : WState) (b : Bool) (st' : WState)
    (h : st.askBool = some (b, st')) : st'.trace = st.trace := by
  simp only [WState.askBool] at h
  split at h
  · exact absurd h (by simp)
  · rw [Option.some.injEq, Prod.mk.injEq] at h
    obtain ⟨rfl, rfl⟩ := h
    rfl

/-- The label-selection loop only ever issues createLabel calls. -/
theorem selectLabelsLoop_trace (env : Env) (b : String) :
    ∀ (fuel : Nat) (choices : List (String × Label)) (sel : List String) (st st' : WState)
      (r : Except Err (List String)),
      selectLabelsLoop env b fuel choices sel st = some (st', r) →
      ∃ L, st'.trace = st.trace ++ L ∧ ∀ c ∈ L, isCreateLabelCall c = true := by
  intro fuel
  induction fuel with
  | zero =>
    intro choices sel st st' r h
    simp [selectLabelsLoop] at h
  | succ n ih =>
    intro choices sel st st' r h
    rw [selectLabelsLoop] at h
    simp only [WState.askTextDefault, WState.print] at h
    split at h
    · exact absurd h (by simp)
    · next s stq heq =>
      have hrt : stq.trace = st.trace := by
        split at heq
        · exact absurd heq (by simp)
        · rw [Option.some.injEq, Prod.mk.injEq] at heq
          obtain ⟨rfl, rfl⟩ := heq
          rfl
      split at h
      · cases h
        exact ⟨[], by simp [hrt], by simp⟩
      · split at h
        · split at h
          · exact absurd h (by simp)
          · next stE e heqc =>
            cases h
            obtain ⟨name, c, _, _, htr⟩ := create_new_label_spec _ _ _ _ _ heqc
            refine ⟨[.createLabel b name (if c = "null" then none else some c)], ?_, ?_⟩
            · rw [htr, hrt]
            · intro c hc
              simp only [List.mem_singleton] at hc
              subst hc
              rfl
          · next stO lbl heqc =>
            obtain ⟨L2, hL2, hall2⟩ := ih _ _ _ _ _ h
            obtain ⟨name, c, _, _, htr⟩ := create_new_label_spec _ _ _ _ _ heqc
            refine ⟨.createLabel b name (if c = "null" then none else some c) :: L2, ?_, ?_⟩
            · rw [hL2, htr, hrt]
              simp
            · intro c hc
              rcases List.mem_cons.mp hc with rfl | hc
              · rfl
              · exact hall2 c hc
        · split at h
          · next label heql =>
            obtain ⟨L, hL, hall⟩ := ih _ _ _ _ _ h
            exact ⟨L, by simp only [WState.print] at hL; simpa [hrt] using hL, hall⟩
          · next heql =>
            obtain ⟨L, hL, hall⟩ := ih _ _ _ _ _ h
            exact ⟨L, by simp only [WState.print] at hL; simpa [hrt] using hL, hall⟩

/-- select_labels issues the getLabels call and then only createLabel
calls. -/
theorem select_labels_trace (env : Env) (b : String) (fuel : Nat) (st st' : WState)
    (r : Except Err (List String)) (h : select_labels env b fuel st = some (st', r)) :
    ∃ L, st'.trace = st.trace ++ (.getLabels b :: L) ∧
      ∀ c ∈ L, isCreateLabelCall c = true := by
  simp only [select_labels] at h
  split at h
  · cases h
    exact ⟨[], by simp [WState.call], by simp⟩
  · next labels heqb =>
    obtain ⟨L, hL, hall⟩ := selectLabelsLoop_trace env b _ _ _ _ _ _ h
    refine ⟨L, ?_, hall⟩
    rw [hL]
    simp [WState.call]

/-- The API-call trace of one add_card iteration extends the incoming trace
with one of the shapes of iterTraceShape. -/
theorem addCardBody_shape (env : Env) (lf : Nat) (st st' : WState) (res : Except Err Bool)
    (h : addCardBody env lf st = some (st', res)) :
    ∃ tail, st'.trace = st.trace ++ tail ∧ iterTraceShape tail := by
  simp only [addCardBody] at h
  split at h
  · exact absurd h (by simp)
  · next st1 e heqb =>
    cases h
    have h1 := select_board_trace _ _ _ _ heqb
    exact ⟨[.getBoards], by rw [h1]; rfl, Or.inl rfl⟩
  · next st1 heqb =>
    split at h
    · exact absurd h (by simp)
    · next again st2 heqa =>
      cases h
      have h1 := select_board_trace _ _ _ _ heqb
      have h2 := askBool_trace _ _ _ heqa
      exact ⟨[.getBoards], by rw [h2, h1]; rfl, Or.inl rfl⟩
  · next st1 board_id heqb =>
    have h1 : st1.trace = st.trace ++ [ApiCall.getBoards] := by
      have := select_board_trace _ _ _ _ heqb
      rw [this]
      rfl
    split at h
    · exact absurd h (by simp)
    · next st2 e heql =>
      cases h
      have h2 := select_list_trace _ _ _ _ _ heql
      exact ⟨[.getBoards, .getLists board_id], by rw [h2, h1]; simp,
        Or.inr (Or.inl ⟨board_id, rfl⟩)⟩
    · next st2 heql =>
      split at h
      · exact absurd h (by simp)
      · next again st3 heqa =>
        cases h
        have h2 := select_list_trace _ _ _ _ _ heql
        have h3 := askBool_trace _ _ _ heqa
        exact ⟨[.getBoards, .getLists board_id], by rw [h3, h2, h1]; simp,
          Or.inr (Or.inl ⟨board_id, rfl⟩)⟩
    · next st2 list_id heql =>
      have h2 : st2.trace = st.trace ++ [ApiCall.getBoards, ApiCall.getLists board_id] := by
        have := select_list_trace _ _ _ _ _ heql
        rw [this, h1]
        simp
      split at h
      · exact absurd h (by simp)
      · next card_title card_desc st3 heqd =>
        have h3 : st3.trace = st.trace ++ [ApiCall.getBoards, ApiCall.getLists board_id] := by
          rw [get_card_details_trace _ _ _ _ heqd, h2]
        split at h
        · exact absurd h (by simp)
        · next st4 e heqs =>
          cases h
          obtain ⟨L, hL, hall⟩ := select_labels_trace _ _ _ _ _ _ heqs
          refine ⟨.getBoards :: .getLists board_id :: .getLabels board_id :: L, ?_, ?_⟩
          · rw [hL, h3]
            simp
          · exact Or.inr (Or.inr ⟨board_id, L, hall, Or.inl rfl⟩)
        · next st4 ids heqs =>
          obtain ⟨L, hL, hall⟩ := select_labels_trace _ _ _ _ _ _ heqs
          have h4 : st4.trace = st.trace ++
              (ApiCall.getBoards :: ApiCall.getLists board_id ::
                ApiCall.getLabels board_id :: L) := by
            rw [hL, h3]
            simp
          split at h
          · next e heqc =>
            cases h
            refine ⟨.getBoards :: .getLists board_id :: .getLabels board_id ::
              (L ++ [.createCard list_id card_title card_desc
                (String.intercalate "," ids)]), ?_, ?_⟩
            · simp only [WState.call, trace_print_ite]
              rw [h4]
              simp
            · exact Or.inr (Or.inr ⟨board_id, L, hall, Or.inr (Or.inl
                ⟨list_id, card_title, card_desc, String.intercalate "," ids, rfl⟩)⟩)
          · next card heqc =>
            rcases afterCardCreated_trace _ _ _ _ _ _ h with hend | ⟨txt, hend⟩
            · refine ⟨.getBoards :: .getLists board_id :: .getLabels board_id ::
                (L ++ [.createCard list_id card_title card_desc
                  (String.intercalate "," ids)]), ?_, ?_⟩
              · rw [hend]
                simp only [WState.call, trace_print_ite]
                rw [h4]
                simp
              · exact Or.inr (Or.inr ⟨board_id, L, hall, Or.inr (Or.inl
                  ⟨list_id, card_title, card_desc, String.intercalate "," ids, rfl⟩)⟩)
            · refine ⟨.getBoards :: .getLists board_id :: .getLabels board_id ::
                (L ++ [.createCard list_id card_title card_desc
                  (String.intercalate "," ids), .addComment card.id txt]), ?_, ?_⟩
              · rw [hend]
                simp only [WState.call, trace_print_ite]
                rw [h4]
                simp
              · exact Or.inr (Or.inr ⟨board_id, L, hall, Or.inr (Or.inr
                  ⟨list_id, card_title, card_desc, String.intercalate "," ids,
                    card.id, txt, rfl⟩)⟩)

/-- C8: in the API-call trace of one add_card iteration (started with an
empty trace), a createCard call is always preceded by the getBoards call of
board selection, the getLists call of list selection and the getLabels call
of label selection, and an addComment call is always preceded by a
createCard call. -/
theorem iteration_call_order (env : Env) (lf : Nat) (st st' : WState) (res : Except Err Bool)
    (h : addCardBody env lf st = some (st', res)) (h0 : st.trace = []) :
    precededBy isGetBoardsCall isCreateCardCall st'.trace ∧
      precededBy isGetListsCall isCreateCardCall st'.trace ∧
      precededBy isGetLabelsCall isCreateCardCall st'.trace ∧
      precededBy isCreateCardCall isAddCommentCall st'.trace := by
  obtain ⟨tail, htr, hshape⟩ := addCardBody_shape env lf st st' res h
  rw [htr, h0, List.nil_append]
  rcases hshape with rfl | ⟨b, rfl⟩ | ⟨b, L, hall, hc⟩
  · exact ⟨precededBy_of_no_q _ _ _ (by decide), precededBy_of_no_q _ _ _ (by decide),
      precededBy_of_no_q _ _ _ (by decide), precededBy_of_no_q _ _ _ (by decide)⟩
  · refine ⟨?_, ?_, ?_, ?_⟩ <;> apply precededBy_of_no_q <;> intro c hc <;>
      fin_cases hc <;> rfl
  · have hnoCard : ∀ c ∈ L, isCreateCardCall c = false :=
      fun c hc => (isCreateLabelCall_only c (hall c hc)).1
    have hnoCom : ∀ c ∈ L, isAddCommentCall c = false :=
      fun c hc => (isCreateLabelCall_only c (hall c hc)).2.1
    rcases hc with rfl | ⟨li, n, d, ids, rfl⟩ | ⟨li, n, d, ids, cid, txt, rfl⟩
    · have hnc : ∀ c ∈ ApiCall.getBoards :: ApiCall.getLists b :: ApiCall.getLabels b :: L,
          isCreateCardCall c = false := by
        intro c hc
        simp only [List.mem_cons] at hc
        rcases hc with rfl | rfl | rfl | hc
        · rfl
        · rfl
        · rfl
        · exact hnoCard c hc
      have hna : ∀ c ∈ ApiCall.getBoards :: ApiCall.getLists b :: ApiCall.getLabels b :: L,
          isAddCommentCall c = false := by
        intro c hc
        simp only [List.mem_cons] at hc
        rcases hc with rfl | rfl | rfl | hc
        · rfl
        · rfl
        · rfl
        · exact hnoCom c hc
      exact ⟨precededBy_of_no_q _ _ _ hnc, precededBy_of_no_q _ _ _ hnc,
        precededBy_of_no_q _ _ _ hnc, precededBy_of_no_q _ _ _ hna⟩
    · have hs : (ApiCall.getBoards :: ApiCall.getLists b :: ApiCall.getLabels b ::
          (L ++ [ApiCall.createCard li n d ids])) =
          (ApiCall.getBoards :: ApiCall.getLists b :: ApiCall.getLabels b :: L) ++
            [ApiCall.createCard li n d ids] := by simp
      have hnc : ∀ c ∈ ApiCall.getBoards :: ApiCall.getLists b :: ApiCall.getLabels b :: L,
          isCreateCardCall c = false := by
        intro c hc
        simp only [List.mem_cons] at hc
        rcases hc with rfl | rfl | rfl | hc
        · rfl
        · rfl
        · rfl
        · exact hnoCard c hc
      have hna : ∀ c ∈ ApiCall.getBoards :: ApiCall.getLists b :: ApiCall.getLabels b ::
          (L ++ [ApiCall.createCard li n d ids]), isAddCommentCall c = false := by
        intro c hc
        simp only [List.mem_cons, List.mem_append, List.mem_singleton, List.not_mem_nil,
          or_false] at hc
        rcases hc with rfl | rfl | rfl | hc | rfl
        · rfl
        · rfl
        · rfl
        · exact hnoCom c hc
        · rfl
      rw [hs]
      exact ⟨precededBy_of_split _ _ _ _ hnc ⟨.getBoards, by simp, rfl⟩,
        precededBy_of_split _ _ _ _ hnc ⟨.getLists b, by simp, rfl⟩,
        precededBy_of_split _ _ _ _ hnc ⟨.getLabels b, by simp, rfl⟩,
        hs ▸ precededBy_of_no_q _ _ _ hna⟩
    · have hs1 : (ApiCall.getBoards :: ApiCall.getLists b :: ApiCall.getLabels b ::
          (L ++ [ApiCall.createCard li n d ids, ApiCall.addComment cid txt])) =
          (ApiCall.getBoards :: ApiCall.getLists b :: ApiCall.getLabels b :: L) ++
            [ApiCall.createCard li n d ids, ApiCall.addComment cid txt] := by simp
      have hs2 : (ApiCall.getBoards :: ApiCall.getLists b :: ApiCall.getLabels b ::
          (L ++ [ApiCall.createCard li n d ids, ApiCall.addComment cid txt])) =
          (ApiCall.getBoards :: ApiCall.getLists b :: ApiCall.getLabels b ::
            (L ++ [ApiCall.createCard li n d ids])) ++ [ApiCall.addComment cid txt] := by
        simp
      have hnc : ∀ c ∈ ApiCall.getBoards :: ApiCall.getLists b :: ApiCall.getLabels b :: L,
          isCreateCardCall c = false := by
        intro c hc
        simp only [List.mem_cons] at hc
        rcases hc with rfl | rfl | rfl | hc
        · rfl
        · rfl
        · rfl
        · exact hnoCard c hc
      have hna : ∀ c ∈ ApiCall.getBoards :: ApiCall.getLists b :: ApiCall.getLabels b ::
          (L ++ [ApiCall.createCard li n d ids]), isAddCommentCall c = false := by
        intro c hc
        simp only [List.mem_cons, List.mem_append, List.mem_singleton, List.not_mem_nil,
          or_false] at hc
        rcases hc with rfl | rfl | rfl | hc | rfl
        · rfl
        · rfl
        · rfl
        · exact hnoCom c hc
        · rfl
      refine ⟨?_, ?_, ?_, ?_⟩
      · rw [hs1]
        exact precededBy_of_split _ _ _ _ hnc ⟨.getBoards, by simp, rfl⟩
      · rw [hs1]
        exact precededBy_of_split _ _ _ _ hnc ⟨.getLists b, by simp, rfl⟩
      · rw [hs1]
        exact precededBy_of_split _ _ _ _ hnc ⟨.getLabels b, by simp, rfl⟩
      · rw [hs2]
        exact precededBy_of_split _ _ _ _ hna
          ⟨.createCard li n d ids, by simp, rfl⟩

/-- C8 witness: a full successful iteration (board, list, title, no labels,
card, comment) has its calls in the required order. -/
theorem iteration_call_order_witness :
    precededBy isGetBoardsCall isCreateCardCall c8End.trace ∧
      precededBy isGetListsCall isCreateCardCall c8End.trace ∧
      precededBy isGetLabelsCall isCreateCardCall c8End.trace ∧
      precededBy isCreateCardCall isAddCommentCall c8End.trace :=
  iteration_call_order c8Env 5 c8St c8End (.ok false) (by decide) rfl

end Trello
